import Mathlib

/-!
Shallow embedding of `src/panapi/config/__init__.py` (`class PanObject`).

The Python class is a generic REST resource: an open attribute mapping plus
CRUD operations against a remote service through a session collaborator.
We model JSON values, Python dict semantics (ordered association lists with
first-key lookup and in-place assignment), and each CRUD method as a pure
function from the instance, the session-expiry flag and the transport outcome
(the HTTP call either raises or returns a response) to an observable record:
the request sent (if any), the resulting instance state, the stored response,
the returned value, the exception propagated to the caller, and the message
printed by the `except` branch.
-/

/-- A JSON value, as produced by `response.json()` and stored in attributes. -/
inductive Json where
  | null : Json
  | bool : Bool → Json
  | num : Int → Json
  | str : String → Json
  | arr : List Json → Json
  | obj : List (String × Json) → Json

/-- A Python dict with string keys, in insertion order. -/
abbrev Dict := List (String × Json)

/-- Lookup `d[key]`: first binding wins (Python dicts have unique keys). -/
def dictLookup : Dict → String → Option Json
  | [], _ => none
  | (k, v) :: rest, key => if k = key then some v else dictLookup rest key

/-- Python `hasattr(self, key)` over the instance `__dict__`. -/
def dictHas (d : Dict) (key : String) : Bool :=
  (dictLookup d key).isSome

/-- Python dict assignment `d[key] = v`: replace in place if the key is
present, otherwise append at the end. -/
def dictSet : Dict → String → Json → Dict
  | [], key, v => [(key, v)]
  | (k, w) :: rest, key, v =>
    if k = key then (k, v) :: rest else (k, w) :: dictSet rest key v

/-- Python `str()` of a JSON value, as used when the id is
interpolated into the URL (`str(None) = "None"`). The claims only exercise the scalar cases. -/
def pyStr : Json → String
  | Json.null => "None"
  | Json.bool true => "True"
  | Json.bool false => "False"
  | Json.num n => toString n
  | Json.str s => s
  | Json.arr _ => "<list>"
  | Json.obj _ => "<dict>"

/-- The Python exceptions the methods can raise. -/
inductive PyError where
  | valueError : String → PyError
  | keyError : String → PyError
  | indexError : String → PyError
  | attributeError : String → PyError
  | typeError : String → PyError
  deriving DecidableEq

/-- An HTTP response: numeric status code and the `.json()` body. -/
structure Response where
  status_code : Nat
  body : Json

/-- Outcome of the HTTP call made by the session collaborator: either a
transport-layer exception (carried as its message) or a response. -/
abbrev Transport := Except String Response

/-- The request handed to the session collaborator. -/
structure Request where
  method : String
  url : String
  headers : Dict
  params : Dict
  body : Option Dict

def baseURL : String := "https://api.sase.paloaltonetworks.com"

/-- A `PanObject` instance: the class-level base URL, the subtype-specific
endpoint path, and the instance `__dict__` (the open attribute mapping). -/
structure PanObject where
  base_url : String
  endpoint : String
  attrs : Dict

/-- Constructor `__init__(self, **kwargs)`: it runs `self.__dict__.update(kwargs)` on a fresh
instance, so the attribute mapping is exactly the keyword mapping. -/
def PanObject.init (base ep : String) (kwargs : Dict) : PanObject :=
  ⟨base, ep, kwargs⟩

/-- The `payload` property: a dict comprehension over `self.__dict__.items()`
producing a fresh snapshot copy of every attribute (no key is excluded by the
implementation). -/
def PanObject.payload (o : PanObject) : Dict :=
  o.attrs.map (fun kv => (kv.1, kv.2))

/-- A value returned by a method: one instance (`read`) or a list (`list`). -/
inductive RetVal where
  | obj : PanObject → RetVal
  | objList : List PanObject → RetVal

/-- Everything observable about one method call. -/
structure OpResult where
  reauthed : Bool
  request : Option Request
  self : PanObject
  response : Option Response
  ret : Option RetVal
  raised : Option PyError
  printed : Option String

/-- The folder scope params: the folder attribute when set, else empty. -/
def folderParams (o : PanObject) : Dict :=
  match dictLookup o.attrs "folder" with
  | some f => [("folder", f)]
  | none => []

def jsonHeaders : Dict := [("Content-Type", Json.str "application/json")]

/-- Method `create`: POST the payload to the collection endpoint; on a 201
response set `self.id` from the body's `id` field via `dict.get` (so a missing
field stores `None`); on a transport exception print it; otherwise leave the
instance untouched. -/
def PanObject.create (o : PanObject) (expired : Bool) (t : Transport) : OpResult :=
  let req : Request :=
    ⟨"POST", o.base_url ++ o.endpoint, jsonHeaders, folderParams o, some o.payload⟩
  match t with
  | Except.error err => ⟨expired, some req, o, none, none, none, some err⟩
  | Except.ok resp =>
    if resp.status_code = 201 then
      match resp.body with
      | Json.obj kvs =>
        let newAttrs := dictSet o.attrs "id" ((dictLookup kvs "id").getD Json.null)
        ⟨expired, some req, { o with attrs := newAttrs }, some resp, none, none, none⟩
      | _ =>
        -- `config.get("id")` on a non-dict body raises AttributeError
        ⟨expired, some req, o, some resp, none,
          some (PyError.attributeError "get"), none⟩
    else ⟨expired, some req, o, some resp, none, none, none⟩

/-- Unmarshalling `type(self)(**config)`: a subtype-preserving construction
from a JSON value, failing with `TypeError` when `config` is not a mapping. -/
def unpackInto (o : PanObject) : Json → Except PyError PanObject
  | Json.obj kvs => Except.ok ⟨o.base_url, o.endpoint, kvs⟩
  | _ => Except.error (PyError.typeError "argument after ** must be a mapping")

/-- Python `result["data"]` subscripting followed by `[0]`, as the by-name
branch of `read` performs: `KeyError` when `data` is missing, `IndexError`
when `data` is an empty sequence, first element otherwise. -/
def dataFirst : Json → Except PyError Json
  | Json.obj kvs =>
    match dictLookup kvs "data" with
    | none => Except.error (PyError.keyError "data")
    | some (Json.arr []) => Except.error (PyError.indexError "list index out of range")
    | some (Json.arr (c :: _)) => Except.ok c
    | some (Json.obj _) => Except.error (PyError.keyError "0")
    | some (Json.str s) =>
      -- a string subscripts to its first character, itself a string
      if s.isEmpty then Except.error (PyError.indexError "string index out of range")
      else Except.ok (Json.str (String.singleton (s.get 0)))
    | some _ => Except.error (PyError.typeError "object is not subscriptable")
  | _ => Except.error (PyError.typeError "object is not subscriptable")

/-- The tail of `PanObject.read` after the URL and params are fixed: run the
GET, and on a 200 response rebuild one instance (from the whole body when the
lookup was by id, from `result["data"][0]` when it was by name). -/
def readRequestStep (o : PanObject) (expired : Bool) (t : Transport)
    (url : String) (params : Dict) (byId : Bool) : OpResult :=
  let req : Request := ⟨"GET", url, [], params, none⟩
  match t with
  | Except.error err => ⟨expired, some req, o, none, none, none, some err⟩
  | Except.ok resp =>
    if resp.status_code = 200 then
      let picked := if byId then Except.ok resp.body else dataFirst resp.body
      match picked.bind (unpackInto o) with
      | Except.ok inst => ⟨expired, some req, o, some resp, some (RetVal.obj inst), none, none⟩
      | Except.error e => ⟨expired, some req, o, some resp, none, some e, none⟩
    else ⟨expired, some req, o, some resp, none, none, none⟩

/-- Method `read`: by id the id is embedded in the URL; otherwise by name
through a `name` query parameter; with neither, `ValueError` is raised before
any request is issued. The `folder` query parameter is kept in both branches. -/
def PanObject.read (o : PanObject) (expired : Bool) (t : Transport) : OpResult :=
  let params := folderParams o
  if dictHas o.attrs "id" then
    let url := o.base_url ++ o.endpoint ++ "/" ++
      pyStr ((dictLookup o.attrs "id").getD Json.null)
    readRequestStep o expired t url params true
  else if dictHas o.attrs "name" then
    let params2 := dictSet params "name" ((dictLookup o.attrs "name").getD Json.null)
    readRequestStep o expired t (o.base_url ++ o.endpoint) params2 false
  else
    ⟨expired, none, o, none, none,
      some (PyError.valueError "name or id value is required"), none⟩

/-- The loop of `list` over the data elements, appending `type(self)(**config)`
for each: builds instances in response order, aborting with the exception of the first
element that is not a mapping. -/
def buildObjList (o : PanObject) : List Json → Except PyError (List PanObject)
  | [] => Except.ok []
  | c :: rest =>
    match unpackInto o c with
    | Except.ok inst => (buildObjList o rest).map (fun l => inst :: l)
    | Except.error e => Except.error e

/-- Iterating `result["data"]` in `list`: `KeyError` when the key is missing;
a JSON array yields its elements; iterating a dict yields its keys (as
strings) and iterating a string yields its characters, both of which then
fail inside `type(self)(**config)`; other values are not iterable. -/
def dataElements : Json → Except PyError (List Json)
  | Json.obj kvs =>
    match dictLookup kvs "data" with
    | none => Except.error (PyError.keyError "data")
    | some (Json.arr items) => Except.ok items
    | some (Json.obj dkvs) => Except.ok (dkvs.map (fun kv => Json.str kv.1))
    | some (Json.str s) => Except.ok (s.toList.map (fun c => Json.str (String.singleton c)))
    | some _ => Except.error (PyError.typeError "object is not iterable")
  | _ => Except.error (PyError.typeError "object is not subscriptable")

/-- Method `list`: GET on the collection endpoint with
folder and a limit of 5000 when `folder` is set (no parameters
at all otherwise); on a 200 response return one new instance per element of
the `data` array, in response order. -/
def PanObject.list (o : PanObject) (expired : Bool) (t : Transport) : OpResult :=
  let params : Dict :=
    match dictLookup o.attrs "folder" with
    | some f => [("folder", f), ("limit", Json.num 5000)]
    | none => []
  let req : Request := ⟨"GET", o.base_url ++ o.endpoint, [], params, none⟩
  match t with
  | Except.error err => ⟨expired, some req, o, none, none, none, some err⟩
  | Except.ok resp =>
    if resp.status_code = 200 then
      match (dataElements resp.body).bind (buildObjList o) with
      | Except.ok insts =>
        ⟨expired, some req, o, some resp, some (RetVal.objList insts), none, none⟩
      | Except.error e => ⟨expired, some req, o, some resp, none, some e, none⟩
    else ⟨expired, some req, o, some resp, none, none, none⟩

/-- Method `update`: PUT the payload, to the instance URL when `id` is set
and to the collection endpoint otherwise; a 200 response body is parsed and
discarded, so the instance never changes. -/
def PanObject.update (o : PanObject) (expired : Bool) (t : Transport) : OpResult :=
  let url :=
    if dictHas o.attrs "id" then
      o.base_url ++ o.endpoint ++ "/" ++ pyStr ((dictLookup o.attrs "id").getD Json.null)
    else o.base_url ++ o.endpoint
  let req : Request := ⟨"PUT", url, jsonHeaders, folderParams o, some o.payload⟩
  match t with
  | Except.error err => ⟨expired, some req, o, none, none, none, some err⟩
  | Except.ok resp => ⟨expired, some req, o, some resp, none, none, none⟩

/-- Method `delete`: the URL interpolates `self.id`, so a missing `id`
raises `AttributeError` before any request is built; on a 200 response the
method performs `del self`, which has no observable effect on the caller. -/
def PanObject.delete (o : PanObject) (expired : Bool) (t : Transport) : OpResult :=
  match dictLookup o.attrs "id" with
  | none =>
    ⟨expired, none, o, none, none, some (PyError.attributeError "id"), none⟩
  | some idv =>
    let url := o.base_url ++ o.endpoint ++ "/" ++ pyStr idv
    let req : Request := ⟨"DELETE", url, jsonHeaders, folderParams o, none⟩
    match t with
    | Except.error err => ⟨expired, some req, o, none, none, none, some err⟩
    | Except.ok resp => ⟨expired, some req, o, some resp, none, none, none⟩

/-! ### Helper lemmas -/

theorem List.map_pair_eta (l : Dict) : l.map (fun kv => (kv.1, kv.2)) = l := by
  induction l with
  | nil => rfl
  | cons hd tl ih => simp [ih]

theorem payload_eq_attrs (o : PanObject) : o.payload = o.attrs :=
  List.map_pair_eta o.attrs

theorem dictLookup_dictSet_self (d : Dict) (k : String) (v : Json) :
    dictLookup (dictSet d k v) k = some v := by
  induction d with
  | nil => simp [dictSet, dictLookup]
  | cons hd tl ih =>
    rcases hd with ⟨a, b⟩
    by_cases h : a = k <;> simp [dictSet, dictLookup, h, ih]

theorem dictHas_dictSet_self (d : Dict) (k : String) (v : Json) :
    dictHas (dictSet d k v) k = true := by
  simp [dictHas, dictLookup_dictSet_self]

theorem dictLookup_folderParams_ne (o : PanObject) (k : String) (h : k ≠ "folder") :
    dictLookup (folderParams o) k = none := by
  unfold folderParams
  cases dictLookup o.attrs "folder" with
  | none => rfl
  | some f => simp [dictLookup, Ne.symm h]

/-! ### Claims -/

/-- C1: the claim says the `folder` attribute is sent as a query parameter by
create and update and never appears in the JSON body; the code does send the
query parameter, but the `payload` property copies every attribute, so the
body leaks `folder` — contradicting the class docstring, which says `payload`
excludes `folder` and `id`. At a concrete entity with `folder = "Shared"` the
POST of `create` and the PUT of `update` both carry
`params = [("folder", "Shared")]` and a body still containing the
`folder` key. -/
theorem C1_folder_leaks_into_body :
    ((PanObject.create (PanObject.init baseURL "/sse/config/v1/addresses"
        [("folder", Json.str "Shared"), ("name", Json.str "web")]) false
        (Except.ok ⟨201, Json.obj [("id", Json.str "abc")]⟩)).request.map
        (fun r => (r.params, r.body))) =
      some ([("folder", Json.str "Shared")],
        some [("folder", Json.str "Shared"), ("name", Json.str "web")]) ∧
    ((PanObject.update (PanObject.init baseURL "/sse/config/v1/addresses"
        [("folder", Json.str "Shared"), ("name", Json.str "web")]) false
        (Except.ok ⟨200, Json.obj []⟩)).request.map
        (fun r => (r.params, r.body))) =
      some ([("folder", Json.str "Shared")],
        some [("folder", Json.str "Shared"), ("name", Json.str "web")]) := by
  exact ⟨rfl, rfl⟩

/-- C2: constructing an entity from an attribute mapping M and reading
`payload` gives back exactly M, and on every instance `payload` is the
snapshot of the full current attribute mapping (the dict comprehension
excludes nothing). -/
theorem C2_payload_construction_roundtrip (base ep : String) (M : Dict) :
    (PanObject.init base ep M).payload = M ∧
    ∀ o : PanObject, o.payload = o.attrs := by
  exact ⟨payload_eq_attrs _, fun o => payload_eq_attrs o⟩

/-- C3: `create` on a 201 response with body `{"id": "abc"}` sets `self.id`
to `"abc"` and changes nothing else; on any other status the instance is
left exactly as it was (so an unset `id` stays unset). -/
theorem C3_create_sets_id_only_on_201 (o : PanObject) (expired : Bool) (resp : Response) :
    (resp.status_code = 201 → resp.body = Json.obj [("id", Json.str "abc")] →
      (o.create expired (Except.ok resp)).self =
        { o with attrs := dictSet o.attrs "id" (Json.str "abc") } ∧
      dictLookup (o.create expired (Except.ok resp)).self.attrs "id" =
        some (Json.str "abc")) ∧
    (resp.status_code ≠ 201 → (o.create expired (Except.ok resp)).self = o) := by
  constructor
  · intro h1 h2
    constructor
    · simp [PanObject.create, h1, h2, dictLookup]
    · simp [PanObject.create, h1, h2, dictLookup, dictLookup_dictSet_self]
  · intro h
    simp [PanObject.create, h]

theorem readRequestStep_request (o : PanObject) (expired : Bool) (t : Transport)
    (url : String) (params : Dict) (byId : Bool) :
    (readRequestStep o expired t url params byId).request =
      some ⟨"GET", url, [], params, none⟩ := by
  cases t with
  | error e => rfl
  | ok resp =>
    simp only [readRequestStep]
    split
    · split <;> rfl
    · rfl

theorem update_request (o : PanObject) (expired : Bool) (t : Transport) :
    (o.update expired t).request =
      some ⟨"PUT",
        if dictHas o.attrs "id" then
          o.base_url ++ o.endpoint ++ "/" ++ pyStr ((dictLookup o.attrs "id").getD Json.null)
        else o.base_url ++ o.endpoint,
        jsonHeaders, folderParams o, some o.payload⟩ := by
  cases t <;> rfl

theorem C3_witness :
    (dictLookup ((PanObject.init baseURL "/ep" [("name", Json.str "w")]).create false
      (Except.ok ⟨201, Json.obj [("id", Json.str "abc")]⟩)).self.attrs "id" =
      some (Json.str "abc")) ∧
    (((PanObject.init baseURL "/ep" [("name", Json.str "w")]).create false
      (Except.ok ⟨404, Json.null⟩)).self =
      PanObject.init baseURL "/ep" [("name", Json.str "w")]) :=
  ⟨((C3_create_sets_id_only_on_201 _ false _).1 rfl rfl).2,
    (C3_create_sets_id_only_on_201 _ false _).2 (by decide)⟩

/-- C4: `read` with `id` set issues a GET to base+endpoint+"/"+id with no
`name` query parameter and on a 200 response returns one new same-subtype
instance built from the full JSON body; with `name` set and `id` unset it
issues a GET to base+endpoint carrying the `name` query parameter and builds
the returned instance from element 0 of the response's `data` array; the
first branch only requires `id`, so `id` takes priority when both are set. -/
theorem C4_read_by_id_then_by_name (o : PanObject) (expired : Bool)
    (resp : Response) (idv nv : Json) :
    (dictLookup o.attrs "id" = some idv →
      ((o.read expired (Except.ok resp)).request =
        some ⟨"GET", o.base_url ++ o.endpoint ++ "/" ++ pyStr idv, [],
          folderParams o, none⟩ ∧
       dictLookup (folderParams o) "name" = none) ∧
      (resp.status_code = 200 → ∀ kvs, resp.body = Json.obj kvs →
        (o.read expired (Except.ok resp)).ret =
          some (RetVal.obj ⟨o.base_url, o.endpoint, kvs⟩))) ∧
    (dictLookup o.attrs "id" = none → dictLookup o.attrs "name" = some nv →
      ((o.read expired (Except.ok resp)).request =
        some ⟨"GET", o.base_url ++ o.endpoint, [],
          dictSet (folderParams o) "name" nv, none⟩ ∧
       dictLookup (dictSet (folderParams o) "name" nv) "name" = some nv) ∧
      (resp.status_code = 200 → ∀ kvs ckvs rest, resp.body = Json.obj kvs →
        dictLookup kvs "data" = some (Json.arr (Json.obj ckvs :: rest)) →
        (o.read expired (Except.ok resp)).ret =
          some (RetVal.obj ⟨o.base_url, o.endpoint, ckvs⟩))) := by
  constructor
  · intro h
    have hhas : dictHas o.attrs "id" = true := by simp [dictHas, h]
    constructor
    · constructor
      · simp [PanObject.read, hhas, h, readRequestStep_request]
      · exact dictLookup_folderParams_ne o "name" (by decide)
    · intro hs kvs hb
      simp [PanObject.read, hhas, h, readRequestStep, hs, hb, unpackInto, Except.bind]
  · intro h hn
    have hhas : dictHas o.attrs "id" = false := by simp [dictHas, h]
    have hhasn : dictHas o.attrs "name" = true := by simp [dictHas, hn]
    constructor
    · constructor
      · simp [PanObject.read, hhas, hhasn, hn, readRequestStep_request]
      · exact dictLookup_dictSet_self _ _ _
    · intro hs kvs ckvs rest hb hd
      simp [PanObject.read, hhas, hhasn, hn, readRequestStep, hs, hb,
        dataFirst, hd, unpackInto, Except.bind]

theorem C4_witness :
    (((PanObject.init baseURL "/ep" [("id", Json.str "x"), ("name", Json.str "y")]).read
        false (Except.ok ⟨200, Json.obj [("kind", Json.str "addr")]⟩)).ret =
      some (RetVal.obj ⟨baseURL, "/ep", [("kind", Json.str "addr")]⟩)) ∧
    (((PanObject.init baseURL "/ep" [("id", Json.str "x"), ("name", Json.str "y")]).read
        false (Except.ok ⟨200, Json.obj [("kind", Json.str "addr")]⟩)).request =
      some ⟨"GET", baseURL ++ "/ep" ++ "/" ++ pyStr (Json.str "x"), [], [], none⟩) ∧
    (((PanObject.init baseURL "/ep" [("name", Json.str "y")]).read
        false (Except.ok ⟨200, Json.obj
          [("data", Json.arr [Json.obj [("name", Json.str "y")]])]⟩)).ret =
      some (RetVal.obj ⟨baseURL, "/ep", [("name", Json.str "y")]⟩)) := by
  refine ⟨?_, ?_, ?_⟩
  · exact ((C4_read_by_id_then_by_name
      (PanObject.init baseURL "/ep" [("id", Json.str "x"), ("name", Json.str "y")])
      false ⟨200, Json.obj [("kind", Json.str "addr")]⟩ (Json.str "x") Json.null).1
      rfl).2 rfl _ rfl
  · exact ((C4_read_by_id_then_by_name
      (PanObject.init baseURL "/ep" [("id", Json.str "x"), ("name", Json.str "y")])
      false ⟨200, Json.obj [("kind", Json.str "addr")]⟩ (Json.str "x") Json.null).1
      rfl).1.1
  · exact ((C4_read_by_id_then_by_name
      (PanObject.init baseURL "/ep" [("name", Json.str "y")])
      false ⟨200, Json.obj [("data", Json.arr [Json.obj [("name", Json.str "y")]])]⟩
      Json.null (Json.str "y")).2 rfl rfl).2 rfl _ _ _ rfl rfl

/-- C5: `read` with neither `id` nor `name` raises the `ValueError`
"name or id value is required" before any request is issued (the recorded
request is `none` whatever the transport would have answered), and this is
the only error kind propagated: a transport failure on a well-formed `read`
is printed and swallowed, never raised. -/
theorem C5_read_missing_identifier (o o2 : PanObject) (expired : Bool)
    (t : Transport) (e : String)
    (h1 : dictHas o.attrs "id" = false) (h2 : dictHas o.attrs "name" = false)
    (h3 : dictHas o2.attrs "id" = true) :
    ((o.read expired t).request = none ∧
     (o.read expired t).raised =
        some (PyError.valueError "name or id value is required") ∧
     (o.read expired t).self = o) ∧
    ((o2.read expired (Except.error e)).raised = none ∧
     (o2.read expired (Except.error e)).printed = some e) := by
  constructor
  · refine ⟨?_, ?_, ?_⟩ <;> simp [PanObject.read, h1, h2]
  · constructor <;> simp [PanObject.read, h3, readRequestStep]

theorem C5_witness :
    (((PanObject.init baseURL "/ep" [("folder", Json.str "S")]).read false
        (Except.ok ⟨200, Json.null⟩)).request = none ∧
     ((PanObject.init baseURL "/ep" [("folder", Json.str "S")]).read false
        (Except.ok ⟨200, Json.null⟩)).raised =
        some (PyError.valueError "name or id value is required") ∧
     ((PanObject.init baseURL "/ep" [("folder", Json.str "S")]).read false
        (Except.ok ⟨200, Json.null⟩)).self =
        PanObject.init baseURL "/ep" [("folder", Json.str "S")]) ∧
    (((PanObject.init baseURL "/ep" [("id", Json.str "x")]).read false
        (Except.error "timeout")).raised = none ∧
     ((PanObject.init baseURL "/ep" [("id", Json.str "x")]).read false
        (Except.error "timeout")).printed = some "timeout") :=
  C5_read_missing_identifier
    (PanObject.init baseURL "/ep" [("folder", Json.str "S")])
    (PanObject.init baseURL "/ep" [("id", Json.str "x")])
    false (Except.ok ⟨200, Json.null⟩) "timeout" rfl rfl rfl

theorem buildObjList_map_obj (o : PanObject) (items : List Dict) :
    buildObjList o (items.map Json.obj) =
      Except.ok (items.map (fun d => ⟨o.base_url, o.endpoint, d⟩)) := by
  induction items with
  | nil => rfl
  | cons hd tl ih => simp [buildObjList, unpackInto, ih, Except.map]

theorem list_request (o : PanObject) (expired : Bool) (t : Transport) :
    (o.list expired t).request =
      some ⟨"GET", o.base_url ++ o.endpoint, [],
        match dictLookup o.attrs "folder" with
        | some f => [("folder", f), ("limit", Json.num 5000)]
        | none => [], none⟩ := by
  cases t with
  | error e => rfl
  | ok resp =>
    simp only [PanObject.list]
    split
    · split <;> rfl
    · rfl

/-- C6: `list` with `folder = F` sends exactly the query parameters folder=F
and limit=5000, sends no parameters at all (hence no limit) when `folder` is
unset, and on a 200 response whose `data` array holds the objects
`data[0], ..., data[n-1]` returns the sequence of new same-subtype instances
with attributes `data[i]`, in order — so its length is the length of `data`
and its i-th element is built from `data[i]`. -/
theorem C6_list_params_and_elements (o o2 : PanObject) (expired : Bool)
    (resp : Response) (F : Json) (items : List Dict) (kvs : Dict)
    (hf : dictLookup o.attrs "folder" = some F)
    (hnf : dictLookup o2.attrs "folder" = none) :
    ((o.list expired (Except.ok resp)).request =
      some ⟨"GET", o.base_url ++ o.endpoint, [],
        [("folder", F), ("limit", Json.num 5000)], none⟩) ∧
    ((o2.list expired (Except.ok resp)).request =
      some ⟨"GET", o2.base_url ++ o2.endpoint, [], [], none⟩) ∧
    (resp.status_code = 200 → resp.body = Json.obj kvs →
      dictLookup kvs "data" = some (Json.arr (items.map Json.obj)) →
      (o.list expired (Except.ok resp)).ret =
        some (RetVal.objList (items.map (fun d => ⟨o.base_url, o.endpoint, d⟩))) ∧
      (items.map (fun d => (⟨o.base_url, o.endpoint, d⟩ : PanObject))).length =
        items.length ∧
      ∀ i : Fin items.length,
        (items.map (fun d => (⟨o.base_url, o.endpoint, d⟩ : PanObject)))[i.1]? =
          some ⟨o.base_url, o.endpoint, items[i.1]⟩) := by
  refine ⟨?_, ?_, ?_⟩
  · rw [list_request, hf]
  · rw [list_request, hnf]
  · intro hs hb hd
    refine ⟨?_, by simp, ?_⟩
    · simp [PanObject.list, hf, hs, hb, dataElements, hd, Except.bind,
        buildObjList_map_obj]
    · intro i
      simp [List.getElem?_map, List.getElem?_eq_getElem i.2]

theorem C6_witness :
    (((PanObject.init baseURL "/ep" [("folder", Json.str "F")]).list false
        (Except.ok ⟨200, Json.obj [("data", Json.arr
          [Json.obj [("name", Json.str "a")],
           Json.obj [("name", Json.str "b")]])]⟩)).request =
      some ⟨"GET", baseURL ++ "/ep", [],
        [("folder", Json.str "F"), ("limit", Json.num 5000)], none⟩) ∧
    (((PanObject.init baseURL "/ep" [("folder", Json.str "F")]).list false
        (Except.ok ⟨200, Json.obj [("data", Json.arr
          [Json.obj [("name", Json.str "a")],
           Json.obj [("name", Json.str "b")]])]⟩)).ret =
      some (RetVal.objList
        [⟨baseURL, "/ep", [("name", Json.str "a")]⟩,
         ⟨baseURL, "/ep", [("name", Json.str "b")]⟩])) := by
  have h := C6_list_params_and_elements
    (PanObject.init baseURL "/ep" [("folder", Json.str "F")])
    (PanObject.init baseURL "/ep" [])
    false
    ⟨200, Json.obj [("data", Json.arr
      [Json.obj [("name", Json.str "a")], Json.obj [("name", Json.str "b")]])]⟩
    (Json.str "F") [[("name", Json.str "a")], [("name", Json.str "b")]]
    [("data", Json.arr
      [Json.obj [("name", Json.str "a")], Json.obj [("name", Json.str "b")]])]
    rfl rfl
  exact ⟨h.1, (h.2.2 rfl rfl rfl).1⟩

/-- C7: the claim says `delete` on an entity lacking `id` fails with a
precondition (validation) error before any network request. The failure is
indeed raised before any request is built, but it is the `AttributeError`
produced by the `self.id` access in the URL interpolation — not the
`ValueError` that `read` uses as its precondition error — so, as stated,
the claim fails on the code. -/
theorem C7_delete_without_id_attribute_error (t : Transport) :
    ((PanObject.init baseURL "/sse/config/v1/addresses"
        [("name", Json.str "web")]).delete false t).request = none ∧
    ((PanObject.init baseURL "/sse/config/v1/addresses"
        [("name", Json.str "web")]).delete false t).raised =
      some (PyError.attributeError "id") ∧
    ∀ s : String,
      ((PanObject.init baseURL "/sse/config/v1/addresses"
          [("name", Json.str "web")]).delete false t).raised ≠
        some (PyError.valueError s) := by
  refine ⟨rfl, rfl, ?_⟩
  intro s h
  exact PyError.noConfusion (Option.some.inj h)

theorem delete_request_of_id (o : PanObject) (expired : Bool) (t : Transport)
    (idv : Json) (h : dictLookup o.attrs "id" = some idv) :
    (o.delete expired t).request =
      some ⟨"DELETE", o.base_url ++ o.endpoint ++ "/" ++ pyStr idv,
        jsonHeaders, folderParams o, none⟩ ∧
    (o.delete expired t).raised = none := by
  cases t <;> simp [PanObject.delete, h]

/-- C8: for each of the five operations, a transport-layer exception is
caught and printed (nothing raised, nothing returned, the instance's
attribute mapping untouched), and a non-success HTTP status (non-201 for
`create`, non-200 for the rest) likewise yields no exception, no return
value, and an unchanged instance. The `create`, `list` and `update` legs
hold for every entity; the `read` leg presumes `id` or `name` and the
`delete` leg presumes `id`, since without them those operations fail with
their identifier errors before any transport event can occur. -/
theorem C8_failures_swallowed (o : PanObject) (expired : Bool)
    (e : String) (resp : Response) :
    ((o.create expired (Except.error e)).raised = none ∧
     (o.create expired (Except.error e)).ret = none ∧
     (o.create expired (Except.error e)).printed = some e ∧
     (o.create expired (Except.error e)).self = o) ∧
    ((o.list expired (Except.error e)).raised = none ∧
     (o.list expired (Except.error e)).ret = none ∧
     (o.list expired (Except.error e)).printed = some e ∧
     (o.list expired (Except.error e)).self = o) ∧
    ((o.update expired (Except.error e)).raised = none ∧
     (o.update expired (Except.error e)).ret = none ∧
     (o.update expired (Except.error e)).printed = some e ∧
     (o.update expired (Except.error e)).self = o) ∧
    (dictHas o.attrs "id" = true ∨ dictHas o.attrs "name" = true →
      (o.read expired (Except.error e)).raised = none ∧
      (o.read expired (Except.error e)).ret = none ∧
      (o.read expired (Except.error e)).printed = some e ∧
      (o.read expired (Except.error e)).self = o) ∧
    (dictHas o.attrs "id" = true →
      (o.delete expired (Except.error e)).raised = none ∧
      (o.delete expired (Except.error e)).ret = none ∧
      (o.delete expired (Except.error e)).printed = some e ∧
      (o.delete expired (Except.error e)).self = o) ∧
    (resp.status_code ≠ 201 →
      (o.create expired (Except.ok resp)).raised = none ∧
      (o.create expired (Except.ok resp)).ret = none ∧
      (o.create expired (Except.ok resp)).self = o) ∧
    (resp.status_code ≠ 200 →
      ((o.list expired (Except.ok resp)).raised = none ∧
       (o.list expired (Except.ok resp)).ret = none ∧
       (o.list expired (Except.ok resp)).self = o) ∧
      ((o.update expired (Except.ok resp)).raised = none ∧
       (o.update expired (Except.ok resp)).ret = none ∧
       (o.update expired (Except.ok resp)).self = o) ∧
      (dictHas o.attrs "id" = true ∨ dictHas o.attrs "name" = true →
        (o.read expired (Except.ok resp)).raised = none ∧
        (o.read expired (Except.ok resp)).ret = none ∧
        (o.read expired (Except.ok resp)).self = o) ∧
      (dictHas o.attrs "id" = true →
        (o.delete expired (Except.ok resp)).raised = none ∧
        (o.delete expired (Except.ok resp)).ret = none ∧
        (o.delete expired (Except.ok resp)).self = o)) := by
  refine ⟨⟨rfl, rfl, rfl, rfl⟩, ⟨rfl, rfl, rfl, rfl⟩, ⟨rfl, rfl, rfl, rfl⟩,
    ?_, ?_, ?_, ?_⟩
  · intro h
    cases hid : dictHas o.attrs "id" with
    | true =>
      refine ⟨?_, ?_, ?_, ?_⟩ <;> simp [PanObject.read, hid, readRequestStep]
    | false =>
      rcases h with h | hname
      · simp [hid] at h
      · refine ⟨?_, ?_, ?_, ?_⟩ <;>
          simp [PanObject.read, hid, hname, readRequestStep]
  · intro hid
    have hv : ∃ idv, dictLookup o.attrs "id" = some idv := by
      simpa [dictHas, Option.isSome_iff_exists] using hid
    obtain ⟨idv, hv⟩ := hv
    refine ⟨?_, ?_, ?_, ?_⟩ <;> simp [PanObject.delete, hv]
  · intro h
    refine ⟨?_, ?_, ?_⟩ <;> simp [PanObject.create, h]
  · intro h
    refine ⟨?_, ⟨rfl, rfl, rfl⟩, ?_, ?_⟩
    · refine ⟨?_, ?_, ?_⟩ <;> simp [PanObject.list, h]
    · intro hin
      cases hid : dictHas o.attrs "id" with
      | true =>
        refine ⟨?_, ?_, ?_⟩ <;> simp [PanObject.read, hid, readRequestStep, h]
      | false =>
        rcases hin with hh | hname
        · simp [hid] at hh
        · refine ⟨?_, ?_, ?_⟩ <;>
            simp [PanObject.read, hid, hname, readRequestStep, h]
    · intro hid
      have hv : ∃ idv, dictLookup o.attrs "id" = some idv := by
        simpa [dictHas, Option.isSome_iff_exists] using hid
      obtain ⟨idv, hv⟩ := hv
      refine ⟨?_, ?_, ?_⟩ <;> simp [PanObject.delete, hv, h]

theorem C8_witness :
    (((PanObject.init baseURL "/ep" [("name", Json.str "w")]).create false
        (Except.error "boom")).printed = some "boom") ∧
    (((PanObject.init baseURL "/ep" [("name", Json.str "w")]).create false
        (Except.ok ⟨500, Json.null⟩)).self =
      PanObject.init baseURL "/ep" [("name", Json.str "w")]) ∧
    (((PanObject.init baseURL "/ep" [("name", Json.str "w")]).read false
        (Except.error "boom")).printed = some "boom") ∧
    (((PanObject.init baseURL "/ep" [("name", Json.str "w")]).update false
        (Except.ok ⟨500, Json.null⟩)).self =
      PanObject.init baseURL "/ep" [("name", Json.str "w")]) ∧
    (((PanObject.init baseURL "/ep" [("id", Json.str "x")]).delete false
        (Except.error "boom")).printed = some "boom") := by
  have h1 := C8_failures_swallowed
    (PanObject.init baseURL "/ep" [("name", Json.str "w")]) false "boom"
    ⟨500, Json.null⟩
  have h2 := C8_failures_swallowed
    (PanObject.init baseURL "/ep" [("id", Json.str "x")]) false "boom"
    ⟨500, Json.null⟩
  obtain ⟨hcE, hlE, huE, hrE, hdE, hcS, hblock⟩ := h1
  exact ⟨hcE.2.2.1, (hcS (by decide)).2.2, (hrE (Or.inr rfl)).2.2.1,
    ((hblock (by decide)).2.1).2.2, (h2.2.2.2.2.1 rfl).2.2.1⟩

/-- C9: on a 200 response, the by-name branch of `read` accesses
`result["data"][0]` unguarded: an empty `data` array raises `IndexError`
instead of returning nothing, and a body with no `data` key raises
`KeyError` — and `list` raises the same `KeyError` when `data` is missing. -/
theorem C9_unguarded_data_access (o : PanObject) (expired : Bool) (kvs : Dict)
    (hid : dictHas o.attrs "id" = false) (hname : dictHas o.attrs "name" = true)
    (hnodata : dictLookup kvs "data" = none) :
    ((o.read expired (Except.ok ⟨200, Json.obj [("data", Json.arr [])]⟩)).raised =
        some (PyError.indexError "list index out of range") ∧
     (o.read expired (Except.ok ⟨200, Json.obj [("data", Json.arr [])]⟩)).ret = none) ∧
    ((o.read expired (Except.ok ⟨200, Json.obj kvs⟩)).raised =
        some (PyError.keyError "data")) ∧
    ((o.list expired (Except.ok ⟨200, Json.obj kvs⟩)).raised =
        some (PyError.keyError "data") ∧
     (o.list expired (Except.ok ⟨200, Json.obj kvs⟩)).ret = none) := by
  refine ⟨⟨?_, ?_⟩, ?_, ?_, ?_⟩ <;>
    simp [PanObject.read, PanObject.list, hid, hname, readRequestStep,
      dataFirst, dataElements, dictLookup, hnodata, Except.bind]

theorem C9_witness :
    (((PanObject.init baseURL "/ep" [("name", Json.str "w")]).read false
        (Except.ok ⟨200, Json.obj [("data", Json.arr [])]⟩)).raised =
      some (PyError.indexError "list index out of range")) ∧
    (((PanObject.init baseURL "/ep" [("name", Json.str "w")]).read false
        (Except.ok ⟨200, Json.obj [("total", Json.num 0)]⟩)).raised =
      some (PyError.keyError "data")) ∧
    (((PanObject.init baseURL "/ep" [("name", Json.str "w")]).list false
        (Except.ok ⟨200, Json.obj [("total", Json.num 0)]⟩)).raised =
      some (PyError.keyError "data")) := by
  have h := C9_unguarded_data_access
    (PanObject.init baseURL "/ep" [("name", Json.str "w")]) false
    [("total", Json.num 0)] rfl rfl rfl
  exact ⟨h.1.1, h.2.1, h.2.2.1⟩

theorem append_slash_none (x : String) : x ++ "/" ++ "None" = x ++ "/None" := by
  rw [String.append_assoc]
  rfl

/-- C10: `create` on a 201 response whose body lacks the `id` field stores
the null value under `id` (the `dict.get` default), so the attribute is now
set; subsequent `read`, `update` and `delete` therefore all target
base+endpoint+"/None" (the string rendering of the null id) instead of
falling back to name lookup or failing the missing-id precondition. -/
theorem C10_create_missing_id_stores_null (o : PanObject) (expired : Bool)
    (t : Transport) (kvs : Dict) (hk : dictLookup kvs "id" = none) :
    ((o.create expired (Except.ok ⟨201, Json.obj kvs⟩)).self.attrs =
       dictSet o.attrs "id" Json.null) ∧
    (dictLookup (o.create expired (Except.ok ⟨201, Json.obj kvs⟩)).self.attrs "id" =
       some Json.null) ∧
    (((o.create expired (Except.ok ⟨201, Json.obj kvs⟩)).self.read expired
        t).request.map Request.url =
      some (o.base_url ++ o.endpoint ++ "/None")) ∧
    (((o.create expired (Except.ok ⟨201, Json.obj kvs⟩)).self.update expired
        t).request.map Request.url =
      some (o.base_url ++ o.endpoint ++ "/None")) ∧
    (((o.create expired (Except.ok ⟨201, Json.obj kvs⟩)).self.delete expired
        t).request.map Request.url =
      some (o.base_url ++ o.endpoint ++ "/None")) ∧
    (((o.create expired (Except.ok ⟨201, Json.obj kvs⟩)).self.delete expired
        t).raised = none) := by
  have hself : (o.create expired (Except.ok ⟨201, Json.obj kvs⟩)).self =
      (⟨o.base_url, o.endpoint, dictSet o.attrs "id" Json.null⟩ : PanObject) := by
    simp [PanObject.create, hk]
  rw [hself]
  have hlook : dictLookup
      ((⟨o.base_url, o.endpoint, dictSet o.attrs "id" Json.null⟩ : PanObject)).attrs
      "id" = some Json.null :=
    dictLookup_dictSet_self _ _ _
  have hhas : dictHas (dictSet o.attrs "id" Json.null) "id" = true := by
    simp [dictHas, dictLookup_dictSet_self]
  refine ⟨rfl, hlook, ?_, ?_, ?_, ?_⟩
  · have hr : ((⟨o.base_url, o.endpoint, dictSet o.attrs "id" Json.null⟩ :
        PanObject).read expired t).request =
        some ⟨"GET", o.base_url ++ o.endpoint ++ "/" ++ pyStr Json.null, [],
          folderParams ⟨o.base_url, o.endpoint, dictSet o.attrs "id" Json.null⟩,
          none⟩ := by
      simp [PanObject.read, hhas, hlook, readRequestStep_request]
    rw [hr]
    exact congrArg some (append_slash_none _)
  · have hr : ((⟨o.base_url, o.endpoint, dictSet o.attrs "id" Json.null⟩ :
        PanObject).update expired t).request =
        some ⟨"PUT", o.base_url ++ o.endpoint ++ "/" ++ pyStr Json.null,
          jsonHeaders,
          folderParams ⟨o.base_url, o.endpoint, dictSet o.attrs "id" Json.null⟩,
          some (PanObject.payload
            ⟨o.base_url, o.endpoint, dictSet o.attrs "id" Json.null⟩)⟩ := by
      rw [update_request]
      simp [hhas, hlook]
    rw [hr]
    exact congrArg some (append_slash_none _)
  · have hr := (delete_request_of_id
      (⟨o.base_url, o.endpoint, dictSet o.attrs "id" Json.null⟩ : PanObject)
      expired t Json.null hlook).1
    rw [hr]
    exact congrArg some (append_slash_none _)
  · exact (delete_request_of_id
      (⟨o.base_url, o.endpoint, dictSet o.attrs "id" Json.null⟩ : PanObject)
      expired t Json.null hlook).2

theorem C10_witness :
    (dictLookup ((PanObject.init baseURL "/ep" [("name", Json.str "w")]).create false
        (Except.ok ⟨201, Json.obj [("status", Json.str "ok")]⟩)).self.attrs "id" =
      some Json.null) ∧
    ((((PanObject.init baseURL "/ep" [("name", Json.str "w")]).create false
        (Except.ok ⟨201, Json.obj [("status", Json.str "ok")]⟩)).self.read false
        (Except.ok ⟨200, Json.null⟩)).request.map Request.url =
      some (baseURL ++ "/ep" ++ "/None")) := by
  have h := C10_create_missing_id_stores_null
    (PanObject.init baseURL "/ep" [("name", Json.str "w")]) false
    (Except.ok ⟨200, Json.null⟩) [("status", Json.str "ok")] rfl
  exact ⟨h.2.1, h.2.2.1⟩
